import Mathlib

/-!
Shallow embedding of src/fadv_shim_drop.c: an LD_PRELOAD shim that
interposes open, open64, fopen, read, pread, readv, close and fclose,
delegates to the original primitives and issues posix_fadvise hints
(NOREUSE at open time, DONTNEED at EOF and at close time) for regular
files whose size is at or below a configurable cutoff.

The OS and the original primitives are modelled as an oracle structure.
Each primitive returns its result together with an optional errno effect
(some e means the call set errno to e, none means errno is untouched).
Every wrapper is a pure function from the oracle, the configuration, its
arguments and the incoming errno value to a result, the outgoing errno
value and a trace of events (delegations, fstat queries, advisory calls).
-/

namespace FadvShim

inductive Advice where
  | noreuse
  | dontneed
deriving DecidableEq

inductive OpenSym where
  | viaOpen
  | viaOpen64
  | viaRaw
deriving DecidableEq

inductive Ev where
  | fstatEv (fd : Int)
  | fadviseEv (fd : Int) (a : Advice)
  | dOpenEv (sym : OpenSym) (pathname : String) (flags : Nat) (mode : Nat)
  | dFopenEv (pathname : String) (mode : String)
  | dFdopenEv (fd : Int)
  | dReadEv (raw : Bool) (fd : Int) (count : Nat)
  | dPreadEv (raw : Bool) (fd : Int) (count : Nat) (offset : Int)
  | dReadvEv (raw : Bool) (fd : Int) (iov : Nat) (iovcnt : Int)
  | dCloseEv (raw : Bool) (fd : Int)
  | dFcloseEv (stream : Option Int)
deriving DecidableEq

/-- File status as returned by fstat: the mode word and the size. -/
structure Stat where
  st_mode : Nat
  st_size : Int
deriving DecidableEq

/-- S_ISREG from sys/stat.h: (m and S_IFMT) equals S_IFREG. -/
def S_ISREG (m : Nat) : Bool := (m &&& 61440) == 32768

def O_CREAT : Nat := 64

def O_RDONLY : Nat := 0

/-- The three configuration globals of the shim (lines 17 to 19). -/
structure Config where
  small_file_cutoff : Int
  do_open_hint : Bool
  do_close_drop : Bool
deriving DecidableEq

/-- The static initial values of the configuration globals. -/
def default_config : Config := ⟨(1 : Int) <<< 20, true, true⟩

/-- Oracle for the OS: the resolved original primitives (none models a
dlsym failure), the raw syscall fallbacks, and the stat facilities used
by the advisory engine.  Each fallible call returns its result paired
with an optional errno effect. -/
structure OS where
  real_open : Option (String → Nat → Nat → Int × Option Int)
  real_open64 : Option (String → Nat → Nat → Int × Option Int)
  real_fopen : Option (String → String → Option Int × Option Int)
  real_read : Option (Int → Nat → Int × Option Int)
  real_pread : Option (Int → Nat → Int → Int × Option Int)
  real_readv : Option (Int → Nat → Int → Int × Option Int)
  real_close : Option (Int → Int × Option Int)
  real_fclose : Option (Option Int → Int × Option Int)
  sys_open : String → Nat → Nat → Int × Option Int
  sys_read : Int → Nat → Int × Option Int
  sys_pread : Int → Nat → Int → Int × Option Int
  sys_readv : Int → Nat → Int → Int × Option Int
  sys_close : Int → Int × Option Int
  fdopen : Int → String → Option Int × Option Int
  fileno : Int → Int
  fstat : Int → Option Stat
  fstat_errno : Int → Int

/-- Characters skipped by strtoll in the C locale. -/
def cSpace (c : Char) : Bool :=
  c == ' ' || c == '\t' || c == '\n' || c == '\x0b' || c == '\x0c' || c == '\r'

def digitsToNat (ds : List Char) : Nat :=
  ds.foldl (fun a c => a * 10 + (c.toNat - 48)) 0

def LLONG_MAX : Int := 2 ^ 63 - 1

def LLONG_MIN : Int := -(2 ^ 63)

/-- strtoll(s, NULL, 10): skip leading whitespace, read an optional
sign, read a run of decimal digits (an empty run yields 0), clamp to
the long long range. -/
def strtoll10 (s : String) : Int :=
  let cs := s.toList.dropWhile cSpace
  let sr : Int × List Char :=
    match cs with
    | '-' :: rest => (-1, rest)
    | '+' :: rest => (1, rest)
    | _ => (1, cs)
  let v : Int := sr.1 * ((digitsToNat (sr.2.takeWhile Char.isDigit) : Nat) : Int)
  if v > LLONG_MAX then LLONG_MAX else if v < LLONG_MIN then LLONG_MIN else v

/-- load_config_from_env (lines 34 to 54), starting from the static
initial values of the three globals. -/
def load_config_from_env (env : String → Option String) : Config :=
  let c0 := default_config
  let c1 :=
    match env "FADV_SMALL_CUTOFF" with
    | some s => if strtoll10 s > 0 then { c0 with small_file_cutoff := strtoll10 s } else c0
    | none => c0
  let c2 :=
    match env "FADV_OPEN_HINT" with
    | some s =>
      if s == "none" then { c1 with do_open_hint := false }
      else if s == "noreuse" then { c1 with do_open_hint := true }
      else c1
    | none => c1
  match env "FADV_CLOSE_DROP" with
  | some s => if s == "0" then { c2 with do_close_drop := false }
              else { c2 with do_close_drop := true }
  | none => c2

/-- try_drop_fd (lines 71 to 80): fadvise DONTNEED on fd if it is a
regular file of size at most the cutoff.  Returns the errno value after
the call and the trace of events. -/
def try_drop_fd (os : OS) (cfg : Config) (fd : Int) (e : Int) : Int × List Ev :=
  if fd < 0 then (e, [])
  else
    match os.fstat fd with
    | none => (os.fstat_errno fd, [Ev.fstatEv fd])
    | some st =>
      if !(S_ISREG st.st_mode) then (e, [Ev.fstatEv fd])
      else if st.st_size > cfg.small_file_cutoff then (e, [Ev.fstatEv fd])
      else (e, [Ev.fstatEv fd, Ev.fadviseEv fd Advice.dontneed])

/-- try_open_hint (lines 83 to 93): fadvise NOREUSE on fd at open time,
behind the do_open_hint switch and the same guards as try_drop_fd. -/
def try_open_hint (os : OS) (cfg : Config) (fd : Int) (e : Int) : Int × List Ev :=
  if !cfg.do_open_hint then (e, [])
  else if fd < 0 then (e, [])
  else
    match os.fstat fd with
    | none => (os.fstat_errno fd, [Ev.fstatEv fd])
    | some st =>
      if !(S_ISREG st.st_mode) then (e, [Ev.fstatEv fd])
      else if st.st_size > cfg.small_file_cutoff then (e, [Ev.fstatEv fd])
      else (e, [Ev.fstatEv fd, Ev.fadviseEv fd Advice.noreuse])

/-- Result of a delegation step: the value, the optional errno effect
and the trace. -/
structure Dlg (α : Type) where
  ret : α
  eff : Option Int
  tr : List Ev
deriving DecidableEq

/-- Result of a whole wrapper: the value, the errno value after the
call and the trace. -/
structure Res (α : Type) where
  ret : α
  errno : Int
  tr : List Ev
deriving DecidableEq

/-- Lines 108 to 110: call real_open when resolved, else the raw
SYS_open syscall, with the same three arguments. -/
def open_delegate (os : OS) (pathname : String) (flags mode : Nat) : Dlg Int :=
  match os.real_open with
  | some f =>
    ⟨(f pathname flags mode).1, (f pathname flags mode).2,
      [Ev.dOpenEv OpenSym.viaOpen pathname flags mode]⟩
  | none =>
    ⟨(os.sys_open pathname flags mode).1, (os.sys_open pathname flags mode).2,
      [Ev.dOpenEv OpenSym.viaRaw pathname flags mode]⟩

/-- The interposed open (lines 97 to 114).  The mode argument is read
from the variadic list only when O_CREAT is set, else 0 is used. -/
def open_wrap (os : OS) (cfg : Config) (pathname : String) (flags modeArg : Nat)
    (e : Int) : Res Int :=
  let mode : Nat := if flags &&& O_CREAT != 0 then modeArg else 0
  let d := open_delegate os pathname flags mode
  ⟨d.ret, (try_open_hint os cfg d.ret (d.eff.getD e)).1,
    d.tr ++ (try_open_hint os cfg d.ret (d.eff.getD e)).2⟩

/-- Lines 127 to 129: call real_open64 when resolved, else the same raw
SYS_open syscall as the open wrapper. -/
def open64_delegate (os : OS) (pathname : String) (flags mode : Nat) : Dlg Int :=
  match os.real_open64 with
  | some f =>
    ⟨(f pathname flags mode).1, (f pathname flags mode).2,
      [Ev.dOpenEv OpenSym.viaOpen64 pathname flags mode]⟩
  | none =>
    ⟨(os.sys_open pathname flags mode).1, (os.sys_open pathname flags mode).2,
      [Ev.dOpenEv OpenSym.viaRaw pathname flags mode]⟩

/-- The interposed open64 (lines 116 to 133). -/
def open64 (os : OS) (cfg : Config) (pathname : String) (flags modeArg : Nat)
    (e : Int) : Res Int :=
  let mode : Nat := if flags &&& O_CREAT != 0 then modeArg else 0
  let d := open64_delegate os pathname flags mode
  ⟨d.ret, (try_open_hint os cfg d.ret (d.eff.getD e)).1,
    d.tr ++ (try_open_hint os cfg d.ret (d.eff.getD e)).2⟩

/-- Lines 137 to 139: call real_fopen when resolved; otherwise fall
back to fdopen over the interposed open called read-only.  The fallback
calls the open wrapper of this same shim, so its trace and errno
effects are part of the delegation. -/
def fopen_delegate (os : OS) (cfg : Config) (pathname mode : String) (e : Int) :
    Res (Option Int) :=
  match os.real_fopen with
  | some rf => ⟨(rf pathname mode).1, ((rf pathname mode).2).getD e, [Ev.dFopenEv pathname mode]⟩
  | none =>
    let w := open_wrap os cfg pathname O_RDONLY 0 e
    ⟨(os.fdopen w.ret "r").1, ((os.fdopen w.ret "r").2).getD w.errno,
      w.tr ++ [Ev.dFdopenEv w.ret]⟩

/-- The interposed fopen (lines 135 to 146): delegate, then when the
stream is non-null and do_open_hint is set, hint on fileno of it. -/
def fopen (os : OS) (cfg : Config) (pathname mode : String) (e : Int) :
    Res (Option Int) :=
  let d := fopen_delegate os cfg pathname mode e
  match d.ret with
  | some h =>
    if cfg.do_open_hint then
      ⟨some h, (try_open_hint os cfg (os.fileno h) d.errno).1,
        d.tr ++ (try_open_hint os cfg (os.fileno h) d.errno).2⟩
    else d
  | none => d

/-- Lines 151 to 152: call real_read when resolved, else SYS_read. -/
def read_delegate (os : OS) (fd : Int) (count : Nat) : Dlg Int :=
  match os.real_read with
  | some f => ⟨(f fd count).1, (f fd count).2, [Ev.dReadEv false fd count]⟩
  | none => ⟨(os.sys_read fd count).1, (os.sys_read fd count).2, [Ev.dReadEv true fd count]⟩

/-- The interposed read (lines 148 to 157): on a zero return, drop the
pages of small regular files. -/
def read (os : OS) (cfg : Config) (fd : Int) (count : Nat) (e : Int) : Res Int :=
  let d := read_delegate os fd count
  let e1 := d.eff.getD e
  if d.ret = 0 then
    ⟨d.ret, (try_drop_fd os cfg fd e1).1, d.tr ++ (try_drop_fd os cfg fd e1).2⟩
  else ⟨d.ret, e1, d.tr⟩

/-- Lines 162 to 163: call real_pread when resolved, else SYS_pread64. -/
def pread_delegate (os : OS) (fd : Int) (count : Nat) (offset : Int) : Dlg Int :=
  match os.real_pread with
  | some f => ⟨(f fd count offset).1, (f fd count offset).2, [Ev.dPreadEv false fd count offset]⟩
  | none =>
    ⟨(os.sys_pread fd count offset).1, (os.sys_pread fd count offset).2,
      [Ev.dPreadEv true fd count offset]⟩

/-- The interposed pread (lines 159 to 168). -/
def pread (os : OS) (cfg : Config) (fd : Int) (count : Nat) (offset : Int) (e : Int) :
    Res Int :=
  let d := pread_delegate os fd count offset
  let e1 := d.eff.getD e
  if d.ret = 0 then
    ⟨d.ret, (try_drop_fd os cfg fd e1).1, d.tr ++ (try_drop_fd os cfg fd e1).2⟩
  else ⟨d.ret, e1, d.tr⟩

/-- Lines 173 to 174: call real_readv when resolved, else SYS_readv. -/
def readv_delegate (os : OS) (fd : Int) (iov : Nat) (iovcnt : Int) : Dlg Int :=
  match os.real_readv with
  | some f => ⟨(f fd iov iovcnt).1, (f fd iov iovcnt).2, [Ev.dReadvEv false fd iov iovcnt]⟩
  | none =>
    ⟨(os.sys_readv fd iov iovcnt).1, (os.sys_readv fd iov iovcnt).2,
      [Ev.dReadvEv true fd iov iovcnt]⟩

/-- The interposed readv (lines 170 to 178). -/
def readv (os : OS) (cfg : Config) (fd : Int) (iov : Nat) (iovcnt : Int) (e : Int) :
    Res Int :=
  let d := readv_delegate os fd iov iovcnt
  let e1 := d.eff.getD e
  if d.ret = 0 then
    ⟨d.ret, (try_drop_fd os cfg fd e1).1, d.tr ++ (try_drop_fd os cfg fd e1).2⟩
  else ⟨d.ret, e1, d.tr⟩

/-- Lines 183 to 184: call real_close when resolved, else SYS_close. -/
def close_delegate (os : OS) (fd : Int) : Dlg Int :=
  match os.real_close with
  | some f => ⟨(f fd).1, (f fd).2, [Ev.dCloseEv false fd]⟩
  | none => ⟨(os.sys_close fd).1, (os.sys_close fd).2, [Ev.dCloseEv true fd]⟩

/-- The interposed close (lines 180 to 185): drop first when
do_close_drop is set, then delegate. -/
def close (os : OS) (cfg : Config) (fd : Int) (e : Int) : Res Int :=
  let a : Int × List Ev := if cfg.do_close_drop then try_drop_fd os cfg fd e else (e, [])
  let d := close_delegate os fd
  ⟨d.ret, d.eff.getD a.1, a.2 ++ d.tr⟩

/-- The advisory block of the interposed fclose (lines 189 to 194):
when the stream is non-null and do_close_drop is set, derive the
descriptor with fileno and drop when it is nonnegative. -/
def fclose_adv (os : OS) (cfg : Config) (stream : Option Int) (e : Int) :
    Int × List Ev :=
  match stream with
  | some h =>
    if cfg.do_close_drop then
      if 0 ≤ os.fileno h then try_drop_fd os cfg (os.fileno h) e else (e, [])
    else (e, [])
  | none => (e, [])

/-- The interposed fclose (lines 187 to 197): run the advisory block,
then call real_fclose when resolved, else return 0 without any
teardown. -/
def fclose (os : OS) (cfg : Config) (stream : Option Int) (e : Int) : Res Int :=
  let a : Int × List Ev := fclose_adv os cfg stream e
  match os.real_fclose with
  | some f => ⟨(f stream).1, ((f stream).2).getD a.1, a.2 ++ [Ev.dFcloseEv stream]⟩
  | none => ⟨0, a.1, a.2⟩

/-- An event belonging to the advisory step (a status query or an
fadvise call), as opposed to a delegation event. -/
def isAdvisoryStep : Ev → Bool
  | Ev.fstatEv _ => true
  | Ev.fadviseEv _ _ => true
  | _ => false

def isFadv : Ev → Bool
  | Ev.fadviseEv _ _ => true
  | _ => false

def isNoreuseOn (fd : Int) : Ev → Bool
  | Ev.fadviseEv g Advice.noreuse => g == fd
  | _ => false

def isDontneedOn (fd : Int) : Ev → Bool
  | Ev.fadviseEv g Advice.dontneed => g == fd
  | _ => false

/-- Rename the open64 delegation symbol to the open one, for comparing
the two open wrappers. -/
def erase64 : Ev → Ev
  | Ev.dOpenEv OpenSym.viaOpen64 p fl m => Ev.dOpenEv OpenSym.viaOpen p fl m
  | x => x

/-- An advisory event touching exactly the descriptor fd. -/
def advOn (fd : Int) : Ev → Bool
  | Ev.fstatEv g => g == fd
  | Ev.fadviseEv g _ => g == fd
  | _ => false

/-- A small regular file status: mode S_IFREG, size 100 bytes. -/
def stReg : Stat := ⟨32768, 100⟩

/-- Another small regular file status, size 50 bytes. -/
def stReg2 : Stat := ⟨32768, 50⟩

def fcwF : Option Int → Int × Option Int := fun _ => (0, some 0)

def opF : String → Nat → Nat → Int × Option Int := fun _ _ _ => (3, none)

def fowF : String → String → Option Int × Option Int := fun _ _ => (some 7, none)

/-- A concrete oracle in which every primitive resolved, every open
yields descriptor 3, fstat knows only descriptor 3 and reports the
small regular file stReg, and file handle lookups map to 3. -/
def osW : OS where
  real_open := some opF
  real_open64 := some opF
  real_fopen := some fowF
  real_read := some fun _ _ => (0, none)
  real_pread := some fun _ _ _ => (0, none)
  real_readv := some fun _ _ _ => (0, none)
  real_close := some fun _ => (0, some 0)
  real_fclose := some fcwF
  sys_open := fun _ _ _ => (-1, some 2)
  sys_read := fun _ _ => (-1, some 9)
  sys_pread := fun _ _ _ => (-1, some 9)
  sys_readv := fun _ _ _ => (-1, some 9)
  sys_close := fun _ => (-1, some 9)
  fdopen := fun fd _ => if 0 ≤ fd then (some 7, none) else (none, some 9)
  fileno := fun _ => 3
  fstat := fun fd => if fd == 3 then some stReg else none
  fstat_errno := fun _ => 9

/-- osW with the buffered open unresolved, exercising the fdopen over
interposed open fallback. -/
def osA : OS := { osW with real_fopen := none }

/-- osW with the buffered close unresolved. -/
def osB : OS := { osW with real_fclose := none }

/-- A second unresolved buffered close oracle, over descriptor 4 and
stream handle 9. -/
def osC : OS :=
  { osW with
      real_fclose := none
      fileno := fun _ => 4
      fstat := fun fd => if fd == 4 then some stReg2 else none }

/-! Helper lemmas about the advisory engine. -/

theorem try_drop_fd_tr_adv (os : OS) (cfg : Config) (fd : Int) (e : Int) :
    ((try_drop_fd os cfg fd e).2).all isAdvisoryStep = true := by
  unfold try_drop_fd
  split
  · rfl
  · rcases h : os.fstat fd with _ | st
    · rfl
    · dsimp only
      split
      · rfl
      · split
        · rfl
        · rfl

theorem try_open_hint_tr_adv (os : OS) (cfg : Config) (fd : Int) (e : Int) :
    ((try_open_hint os cfg fd e).2).all isAdvisoryStep = true := by
  unfold try_open_hint
  split
  · rfl
  · split
    · rfl
    · rcases h : os.fstat fd with _ | st
      · rfl
      · dsimp only
        split
        · rfl
        · split
          · rfl
          · rfl

theorem try_open_hint_neg (os : OS) (cfg : Config) (fd : Int) (e : Int)
    (h : fd < 0) : try_open_hint os cfg fd e = (e, []) := by
  simp [try_open_hint, h]

theorem try_open_hint_off (os : OS) (cfg : Config) (fd : Int) (e : Int)
    (h : cfg.do_open_hint = false) : try_open_hint os cfg fd e = (e, []) := by
  unfold try_open_hint
  rw [if_pos (by rw [h]; rfl)]

theorem try_drop_fd_hit (os : OS) (cfg : Config) (fd : Int) (e : Int) (st : Stat)
    (h0 : 0 ≤ fd) (h1 : os.fstat fd = some st) (h2 : S_ISREG st.st_mode = true)
    (h3 : st.st_size ≤ cfg.small_file_cutoff) :
    try_drop_fd os cfg fd e = (e, [Ev.fstatEv fd, Ev.fadviseEv fd Advice.dontneed]) := by
  unfold try_drop_fd
  rw [if_neg (by omega), h1]
  dsimp only
  rw [if_neg (by rw [h2]; simp), if_neg (by omega)]

theorem try_open_hint_hit (os : OS) (cfg : Config) (fd : Int) (e : Int) (st : Stat)
    (hh : cfg.do_open_hint = true)
    (h0 : 0 ≤ fd) (h1 : os.fstat fd = some st) (h2 : S_ISREG st.st_mode = true)
    (h3 : st.st_size ≤ cfg.small_file_cutoff) :
    try_open_hint os cfg fd e = (e, [Ev.fstatEv fd, Ev.fadviseEv fd Advice.noreuse]) := by
  unfold try_open_hint
  rw [if_neg (by rw [hh]; simp), if_neg (by omega), h1]
  dsimp only
  rw [if_neg (by rw [h2]; simp), if_neg (by omega)]

theorem try_drop_fd_big (os : OS) (cfg : Config) (fd : Int) (e : Int)
    (hbig : ∀ st, os.fstat fd = some st → cfg.small_file_cutoff < st.st_size) :
    ((try_drop_fd os cfg fd e).2).countP isFadv = 0 := by
  unfold try_drop_fd
  split
  · rfl
  · rcases h : os.fstat fd with _ | st
    · rfl
    · dsimp only
      split
      · rfl
      · split
        · rfl
        · next hlt => exact absurd (hbig st h) hlt

theorem try_open_hint_big (os : OS) (cfg : Config) (fd : Int) (e : Int)
    (hbig : ∀ st, os.fstat fd = some st → cfg.small_file_cutoff < st.st_size) :
    ((try_open_hint os cfg fd e).2).countP isFadv = 0 := by
  unfold try_open_hint
  split
  · rfl
  · split
    · rfl
    · rcases h : os.fstat fd with _ | st
      · rfl
      · dsimp only
        split
        · rfl
        · split
          · rfl
          · next hlt => exact absurd (hbig st h) hlt

theorem try_drop_fd_on (os : OS) (cfg : Config) (fd : Int) (e : Int) :
    ((try_drop_fd os cfg fd e).2).all (advOn fd) = true := by
  unfold try_drop_fd
  split
  · rfl
  · rcases h : os.fstat fd with _ | st
    · simp [advOn]
    · dsimp only
      split
      · simp [advOn]
      · split
        · simp [advOn]
        · simp [advOn]

/-! Helper lemmas about the wrappers. -/

theorem open_wrap_ret (os : OS) (cfg : Config) (p : String) (fl m : Nat) (e : Int) :
    (open_wrap os cfg p fl m e).ret
      = (open_delegate os p fl (if fl &&& O_CREAT != 0 then m else 0)).ret := rfl

theorem open_wrap_tr (os : OS) (cfg : Config) (p : String) (fl m : Nat) (e : Int) :
    (open_wrap os cfg p fl m e).tr
      = (open_delegate os p fl (if fl &&& O_CREAT != 0 then m else 0)).tr
        ++ (try_open_hint os cfg
              (open_delegate os p fl (if fl &&& O_CREAT != 0 then m else 0)).ret
              (((open_delegate os p fl (if fl &&& O_CREAT != 0 then m else 0)).eff).getD e)).2 :=
  rfl

theorem open_wrap_errno (os : OS) (cfg : Config) (p : String) (fl m : Nat) (e : Int) :
    (open_wrap os cfg p fl m e).errno
      = (try_open_hint os cfg
          (open_delegate os p fl (if fl &&& O_CREAT != 0 then m else 0)).ret
          (((open_delegate os p fl (if fl &&& O_CREAT != 0 then m else 0)).eff).getD e)).1 :=
  rfl

theorem open64_ret (os : OS) (cfg : Config) (p : String) (fl m : Nat) (e : Int) :
    (open64 os cfg p fl m e).ret
      = (open64_delegate os p fl (if fl &&& O_CREAT != 0 then m else 0)).ret := rfl

theorem open64_tr (os : OS) (cfg : Config) (p : String) (fl m : Nat) (e : Int) :
    (open64 os cfg p fl m e).tr
      = (open64_delegate os p fl (if fl &&& O_CREAT != 0 then m else 0)).tr
        ++ (try_open_hint os cfg
              (open64_delegate os p fl (if fl &&& O_CREAT != 0 then m else 0)).ret
              (((open64_delegate os p fl (if fl &&& O_CREAT != 0 then m else 0)).eff).getD e)).2 :=
  rfl

theorem open64_errno (os : OS) (cfg : Config) (p : String) (fl m : Nat) (e : Int) :
    (open64 os cfg p fl m e).errno
      = (try_open_hint os cfg
          (open64_delegate os p fl (if fl &&& O_CREAT != 0 then m else 0)).ret
          (((open64_delegate os p fl (if fl &&& O_CREAT != 0 then m else 0)).eff).getD e)).1 :=
  rfl

theorem open_delegate_tr (os : OS) (p : String) (fl mo : Nat) :
    ∃ sym, (open_delegate os p fl mo).tr = [Ev.dOpenEv sym p fl mo] := by
  rcases h : os.real_open with _ | f
  · exact ⟨OpenSym.viaRaw, by simp [open_delegate, h]⟩
  · exact ⟨OpenSym.viaOpen, by simp [open_delegate, h]⟩

theorem open64_delegate_tr (os : OS) (p : String) (fl mo : Nat) :
    ∃ sym, (open64_delegate os p fl mo).tr = [Ev.dOpenEv sym p fl mo] := by
  rcases h : os.real_open64 with _ | f
  · exact ⟨OpenSym.viaRaw, by simp [open64_delegate, h]⟩
  · exact ⟨OpenSym.viaOpen64, by simp [open64_delegate, h]⟩

theorem fopen_ret (os : OS) (cfg : Config) (p md : String) (e : Int) :
    (fopen os cfg p md e).ret = (fopen_delegate os cfg p md e).ret := by
  unfold fopen
  rcases h : (fopen_delegate os cfg p md e).ret with _ | hh
  · simp [h]
  · simp only [h]
    split
    · rfl
    · rw [h]

theorem fopen_none (os : OS) (cfg : Config) (p md : String) (e : Int)
    (h : (fopen_delegate os cfg p md e).ret = none) :
    fopen os cfg p md e = fopen_delegate os cfg p md e := by
  unfold fopen
  dsimp only
  rw [h]

theorem fopen_tr_decomp (os : OS) (cfg : Config) (p md : String) (e : Int) :
    ∃ a, (fopen os cfg p md e).tr = (fopen_delegate os cfg p md e).tr ++ a
      ∧ a.all isAdvisoryStep = true := by
  unfold fopen
  rcases h : (fopen_delegate os cfg p md e).ret with _ | hh
  · exact ⟨[], by simp [h]⟩
  · simp only [h]
    split
    · exact ⟨_, rfl, try_open_hint_tr_adv _ _ _ _⟩
    · exact ⟨[], by simp⟩

theorem read_ret (os : OS) (cfg : Config) (fd : Int) (cnt : Nat) (e : Int) :
    (read os cfg fd cnt e).ret = (read_delegate os fd cnt).ret := by
  unfold read
  dsimp only
  split <;> rfl

theorem read_ne_zero (os : OS) (cfg : Config) (fd : Int) (cnt : Nat) (e : Int)
    (h : (read_delegate os fd cnt).ret ≠ 0) :
    (read os cfg fd cnt e).errno = ((read_delegate os fd cnt).eff).getD e
      ∧ (read os cfg fd cnt e).tr = (read_delegate os fd cnt).tr := by
  unfold read
  dsimp only
  rw [if_neg h]
  exact ⟨rfl, rfl⟩

theorem read_zero (os : OS) (cfg : Config) (fd : Int) (cnt : Nat) (e : Int)
    (h : (read_delegate os fd cnt).ret = 0) :
    (read os cfg fd cnt e).tr = (read_delegate os fd cnt).tr
      ++ (try_drop_fd os cfg fd (((read_delegate os fd cnt).eff).getD e)).2 := by
  unfold read
  dsimp only
  rw [if_pos h]

theorem read_delegate_tr (os : OS) (fd : Int) (cnt : Nat) :
    ∃ raw, (read_delegate os fd cnt).tr = [Ev.dReadEv raw fd cnt] := by
  rcases h : os.real_read with _ | f
  · exact ⟨true, by simp [read_delegate, h]⟩
  · exact ⟨false, by simp [read_delegate, h]⟩

theorem pread_ret (os : OS) (cfg : Config) (fd : Int) (cnt : Nat) (off e : Int) :
    (pread os cfg fd cnt off e).ret = (pread_delegate os fd cnt off).ret := by
  unfold pread
  dsimp only
  split <;> rfl

theorem pread_ne_zero (os : OS) (cfg : Config) (fd : Int) (cnt : Nat) (off e : Int)
    (h : (pread_delegate os fd cnt off).ret ≠ 0) :
    (pread os cfg fd cnt off e).errno = ((pread_delegate os fd cnt off).eff).getD e
      ∧ (pread os cfg fd cnt off e).tr = (pread_delegate os fd cnt off).tr := by
  unfold pread
  dsimp only
  rw [if_neg h]
  exact ⟨rfl, rfl⟩

theorem pread_zero (os : OS) (cfg : Config) (fd : Int) (cnt : Nat) (off e : Int)
    (h : (pread_delegate os fd cnt off).ret = 0) :
    (pread os cfg fd cnt off e).tr = (pread_delegate os fd cnt off).tr
      ++ (try_drop_fd os cfg fd (((pread_delegate os fd cnt off).eff).getD e)).2 := by
  unfold pread
  dsimp only
  rw [if_pos h]

theorem pread_delegate_tr (os : OS) (fd : Int) (cnt : Nat) (off : Int) :
    ∃ raw, (pread_delegate os fd cnt off).tr = [Ev.dPreadEv raw fd cnt off] := by
  rcases h : os.real_pread with _ | f
  · exact ⟨true, by simp [pread_delegate, h]⟩
  · exact ⟨false, by simp [pread_delegate, h]⟩

theorem readv_ret (os : OS) (cfg : Config) (fd : Int) (iov : Nat) (ivc e : Int) :
    (readv os cfg fd iov ivc e).ret = (readv_delegate os fd iov ivc).ret := by
  unfold readv
  dsimp only
  split <;> rfl

theorem readv_ne_zero (os : OS) (cfg : Config) (fd : Int) (iov : Nat) (ivc e : Int)
    (h : (readv_delegate os fd iov ivc).ret ≠ 0) :
    (readv os cfg fd iov ivc e).errno = ((readv_delegate os fd iov ivc).eff).getD e
      ∧ (readv os cfg fd iov ivc e).tr = (readv_delegate os fd iov ivc).tr := by
  unfold readv
  dsimp only
  rw [if_neg h]
  exact ⟨rfl, rfl⟩

theorem readv_zero (os : OS) (cfg : Config) (fd : Int) (iov : Nat) (ivc e : Int)
    (h : (readv_delegate os fd iov ivc).ret = 0) :
    (readv os cfg fd iov ivc e).tr = (readv_delegate os fd iov ivc).tr
      ++ (try_drop_fd os cfg fd (((readv_delegate os fd iov ivc).eff).getD e)).2 := by
  unfold readv
  dsimp only
  rw [if_pos h]

theorem readv_delegate_tr (os : OS) (fd : Int) (iov : Nat) (ivc : Int) :
    ∃ raw, (readv_delegate os fd iov ivc).tr = [Ev.dReadvEv raw fd iov ivc] := by
  rcases h : os.real_readv with _ | f
  · exact ⟨true, by simp [readv_delegate, h]⟩
  · exact ⟨false, by simp [readv_delegate, h]⟩

theorem close_ret (os : OS) (cfg : Config) (fd : Int) (e : Int) :
    (close os cfg fd e).ret = (close_delegate os fd).ret := rfl

theorem close_tr (os : OS) (cfg : Config) (fd : Int) (e : Int) :
    (close os cfg fd e).tr
      = (if cfg.do_close_drop then try_drop_fd os cfg fd e else (e, [])).2
        ++ (close_delegate os fd).tr := rfl

theorem close_errno (os : OS) (cfg : Config) (fd : Int) (e : Int) :
    (close os cfg fd e).errno
      = ((close_delegate os fd).eff).getD
          (if cfg.do_close_drop then try_drop_fd os cfg fd e else (e, [])).1 := rfl

theorem close_delegate_tr (os : OS) (fd : Int) :
    ∃ raw, (close_delegate os fd).tr = [Ev.dCloseEv raw fd] := by
  rcases h : os.real_close with _ | f
  · exact ⟨true, by simp [close_delegate, h]⟩
  · exact ⟨false, by simp [close_delegate, h]⟩

theorem fclose_adv_all (os : OS) (cfg : Config) (s : Option Int) (e : Int) :
    ((fclose_adv os cfg s e).2).all isAdvisoryStep = true := by
  unfold fclose_adv
  rcases s with _ | h
  · rfl
  · dsimp only
    split
    · split
      · exact try_drop_fd_tr_adv _ _ _ _
      · rfl
    · rfl

theorem fclose_adv_on (os : OS) (cfg : Config) (h : Int) (e : Int) :
    ((fclose_adv os cfg (some h) e).2).all (advOn (os.fileno h)) = true := by
  unfold fclose_adv
  dsimp only
  split
  · split
    · exact try_drop_fd_on _ _ _ _
    · rfl
  · rfl

theorem fclose_resolved (os : OS) (cfg : Config) (s : Option Int) (e : Int)
    (f : Option Int → Int × Option Int) (hf : os.real_fclose = some f) :
    fclose os cfg s e
      = ⟨(f s).1, ((f s).2).getD (fclose_adv os cfg s e).1,
          (fclose_adv os cfg s e).2 ++ [Ev.dFcloseEv s]⟩ := by
  unfold fclose
  rw [hf]

theorem fclose_unresolved (os : OS) (cfg : Config) (s : Option Int) (e : Int)
    (hf : os.real_fclose = none) :
    fclose os cfg s e = ⟨0, (fclose_adv os cfg s e).1, (fclose_adv os cfg s e).2⟩ := by
  unfold fclose
  rw [hf]

/-! Closed forms of the three configuration fields. -/

theorem load_cutoff (env : String → Option String) :
    (load_config_from_env env).small_file_cutoff
      = match env "FADV_SMALL_CUTOFF" with
        | some s => if strtoll10 s > 0 then strtoll10 s else (1 : Int) <<< 20
        | none => (1 : Int) <<< 20 := by
  unfold load_config_from_env default_config
  rcases h1 : env "FADV_SMALL_CUTOFF" with _ | s <;>
    rcases h2 : env "FADV_OPEN_HINT" with _ | t <;>
      rcases h3 : env "FADV_CLOSE_DROP" with _ | u <;>
        simp only [h1, h2, h3] <;> split_ifs <;> rfl

theorem load_open_hint_fun (env : String → Option String) :
    (load_config_from_env env).do_open_hint
      = match env "FADV_OPEN_HINT" with
        | some t => if t == "none" then false else if t == "noreuse" then true else true
        | none => true := by
  unfold load_config_from_env default_config
  rcases h1 : env "FADV_SMALL_CUTOFF" with _ | s <;>
    rcases h2 : env "FADV_OPEN_HINT" with _ | t <;>
      rcases h3 : env "FADV_CLOSE_DROP" with _ | u <;>
        simp only [h1, h2, h3] <;> split_ifs <;> rfl

theorem load_close_drop_fun (env : String → Option String) :
    (load_config_from_env env).do_close_drop
      = match env "FADV_CLOSE_DROP" with
        | some u => if u == "0" then false else true
        | none => true := by
  unfold load_config_from_env default_config
  rcases h1 : env "FADV_SMALL_CUTOFF" with _ | s <;>
    rcases h2 : env "FADV_OPEN_HINT" with _ | t <;>
      rcases h3 : env "FADV_CLOSE_DROP" with _ | u <;>
        simp only [h1, h2, h3] <;> split_ifs <;> rfl

/-- Claim C5: the configuration cutoff equals the cutoff environment
variable parsed as an integer whenever the parse is positive, and
equals the 1 MiB default (2 to the 20 bytes) whenever the variable is
absent, unparsable (strtoll then yields 0), or parses to a value at
most zero. -/
theorem fadv_c5_cutoff_config (env : String → Option String) (s : String) :
    ((1 : Int) <<< 20 = 2 ^ 20)
    ∧ (env "FADV_SMALL_CUTOFF" = none →
        (load_config_from_env env).small_file_cutoff = (1 : Int) <<< 20)
    ∧ (env "FADV_SMALL_CUTOFF" = some s → 0 < strtoll10 s →
        (load_config_from_env env).small_file_cutoff = strtoll10 s)
    ∧ (env "FADV_SMALL_CUTOFF" = some s → strtoll10 s ≤ 0 →
        (load_config_from_env env).small_file_cutoff = (1 : Int) <<< 20) := by
  refine ⟨by decide, ?_, ?_, ?_⟩
  · intro h
    rw [load_cutoff, h]
  · intro h hp
    rw [load_cutoff, h]
    dsimp only
    rw [if_pos hp]
  · intro h hp
    rw [load_cutoff, h]
    dsimp only
    rw [if_neg (by omega)]

def envW5 : String → Option String :=
  fun k => if k = "FADV_SMALL_CUTOFF" then some "4096" else none

theorem fadv_c5_witness :
    envW5 "FADV_SMALL_CUTOFF" = some "4096" ∧ 0 < strtoll10 "4096"
      ∧ (load_config_from_env envW5).small_file_cutoff = strtoll10 "4096" :=
  ⟨by decide, by decide,
    (fadv_c5_cutoff_config envW5 "4096").2.2.1 (by decide) (by decide)⟩

/-- Claim C6: the open-hint variable set to the string none disables
exactly the open-time hint, the close-drop variable set to the string 0
disables exactly the close-time drop, any other value of either
variable (absence included) leaves the corresponding advisory enabled,
and each field depends only on its own variable. -/
theorem fadv_c6_mode_flags (env env2 : String → Option String)
    (h1 : env "FADV_OPEN_HINT" = env2 "FADV_OPEN_HINT")
    (h2 : env "FADV_CLOSE_DROP" = env2 "FADV_CLOSE_DROP") :
    ((load_config_from_env env).do_open_hint = false ↔
        env "FADV_OPEN_HINT" = some "none")
    ∧ ((load_config_from_env env).do_close_drop = false ↔
        env "FADV_CLOSE_DROP" = some "0")
    ∧ (load_config_from_env env).do_open_hint = (load_config_from_env env2).do_open_hint
    ∧ (load_config_from_env env).do_close_drop
        = (load_config_from_env env2).do_close_drop := by
  refine ⟨?_, ?_, ?_, ?_⟩
  · rw [load_open_hint_fun]
    rcases hv : env "FADV_OPEN_HINT" with _ | t
    · simp
    · dsimp only
      split_ifs with ha hb
      · have ht : t = "none" := by simpa using ha
        subst ht
        simp
      · have ht : t ≠ "none" := by simpa using ha
        simp [ht]
      · have ht : t ≠ "none" := by simpa using ha
        simp [ht]
  · rw [load_close_drop_fun]
    rcases hv : env "FADV_CLOSE_DROP" with _ | u
    · simp
    · dsimp only
      split_ifs with ha
      · have hu : u = "0" := by simpa using ha
        subst hu
        simp
      · have hu : u ≠ "0" := by simpa using ha
        simp [hu]
  · rw [load_open_hint_fun, load_open_hint_fun, h1]
  · rw [load_close_drop_fun, load_close_drop_fun, h2]

def envW6 : String → Option String :=
  fun k => if k = "FADV_OPEN_HINT" then some "none" else none

def envW6b : String → Option String :=
  fun k =>
    if k = "FADV_OPEN_HINT" then some "none"
    else if k = "FADV_SMALL_CUTOFF" then some "31" else none

theorem fadv_c6_witness :
    envW6 "FADV_OPEN_HINT" = envW6b "FADV_OPEN_HINT"
    ∧ envW6 "FADV_CLOSE_DROP" = envW6b "FADV_CLOSE_DROP"
    ∧ ((load_config_from_env envW6).do_open_hint = false ↔
        envW6 "FADV_OPEN_HINT" = some "none")
    ∧ (load_config_from_env envW6).do_close_drop
        = (load_config_from_env envW6b).do_close_drop :=
  ⟨by decide, by decide,
    (fadv_c6_mode_flags envW6 envW6b (by decide) (by decide)).1,
    (fadv_c6_mode_flags envW6 envW6b (by decide) (by decide)).2.2.2⟩

theorem fclose_adv_hit (os : OS) (cfg : Config) (h e fd : Int) (st : Stat)
    (hcd : cfg.do_close_drop = true) (hfile : os.fileno h = fd) (h0 : 0 ≤ fd)
    (h1 : os.fstat fd = some st) (h2 : S_ISREG st.st_mode = true)
    (h3 : st.st_size ≤ cfg.small_file_cutoff) :
    fclose_adv os cfg (some h) e
      = (e, [Ev.fstatEv fd, Ev.fadviseEv fd Advice.dontneed]) := by
  unfold fclose_adv
  dsimp only
  rw [hfile, if_pos hcd, if_pos h0, try_drop_fd_hit os cfg fd e st h0 h1 h2 h3]

theorem fclose_adv_off (os : OS) (cfg : Config) (s : Option Int) (e : Int)
    (hcd : cfg.do_close_drop = false) : fclose_adv os cfg s e = (e, []) := by
  unfold fclose_adv
  rcases s with _ | h
  · rfl
  · dsimp only
    rw [if_neg (by simp [hcd])]

/-- Claim C3: a read-family call whose delegate returns exactly zero
invokes the drop operation whatever the close-drop setting, so exactly
one DONTNEED advisory is issued whenever the descriptor passes the
validity, regular-file and size guards; a nonzero or failing delegate
return issues no advisory; and the read wrappers do not depend on the
close-drop flag at all. -/
theorem fadv_c3_eof_drop (os : OS) (cfg : Config) (fd : Int) (cnt : Nat)
    (off : Int) (iov : Nat) (ivc : Int) (e : Int) (st : Stat) (b : Bool) :
    ((read_delegate os fd cnt).ret = 0 → 0 ≤ fd → os.fstat fd = some st →
        S_ISREG st.st_mode = true → st.st_size ≤ cfg.small_file_cutoff →
        ((read os cfg fd cnt e).tr).countP (isDontneedOn fd) = 1)
    ∧ ((read_delegate os fd cnt).ret ≠ 0 →
        ((read os cfg fd cnt e).tr).countP isFadv = 0)
    ∧ read os cfg fd cnt e = read os { cfg with do_close_drop := b } fd cnt e
    ∧ ((pread_delegate os fd cnt off).ret = 0 → 0 ≤ fd → os.fstat fd = some st →
        S_ISREG st.st_mode = true → st.st_size ≤ cfg.small_file_cutoff →
        ((pread os cfg fd cnt off e).tr).countP (isDontneedOn fd) = 1)
    ∧ ((pread_delegate os fd cnt off).ret ≠ 0 →
        ((pread os cfg fd cnt off e).tr).countP isFadv = 0)
    ∧ pread os cfg fd cnt off e = pread os { cfg with do_close_drop := b } fd cnt off e
    ∧ ((readv_delegate os fd iov ivc).ret = 0 → 0 ≤ fd → os.fstat fd = some st →
        S_ISREG st.st_mode = true → st.st_size ≤ cfg.small_file_cutoff →
        ((readv os cfg fd iov ivc e).tr).countP (isDontneedOn fd) = 1)
    ∧ ((readv_delegate os fd iov ivc).ret ≠ 0 →
        ((readv os cfg fd iov ivc e).tr).countP isFadv = 0)
    ∧ readv os cfg fd iov ivc e = readv os { cfg with do_close_drop := b } fd iov ivc e := by
  refine ⟨?_, ?_, ?_, ?_, ?_, ?_, ?_, ?_, ?_⟩
  · intro h0 hfd hstat hreg hsz
    rw [read_zero os cfg fd cnt e h0]
    obtain ⟨raw, hdtr⟩ := read_delegate_tr os fd cnt
    rw [List.countP_append, hdtr,
      try_drop_fd_hit os cfg fd (((read_delegate os fd cnt).eff).getD e) st hfd hstat hreg hsz]
    simp [isDontneedOn]
  · intro h0
    rw [(read_ne_zero os cfg fd cnt e h0).2]
    obtain ⟨raw, hdtr⟩ := read_delegate_tr os fd cnt
    rw [hdtr]
    rfl
  · rcases cfg with ⟨cut, oh, cd⟩
    rfl
  · intro h0 hfd hstat hreg hsz
    rw [pread_zero os cfg fd cnt off e h0]
    obtain ⟨raw, hdtr⟩ := pread_delegate_tr os fd cnt off
    rw [List.countP_append, hdtr,
      try_drop_fd_hit os cfg fd (((pread_delegate os fd cnt off).eff).getD e) st hfd hstat hreg hsz]
    simp [isDontneedOn]
  · intro h0
    rw [(pread_ne_zero os cfg fd cnt off e h0).2]
    obtain ⟨raw, hdtr⟩ := pread_delegate_tr os fd cnt off
    rw [hdtr]
    rfl
  · rcases cfg with ⟨cut, oh, cd⟩
    rfl
  · intro h0 hfd hstat hreg hsz
    rw [readv_zero os cfg fd iov ivc e h0]
    obtain ⟨raw, hdtr⟩ := readv_delegate_tr os fd iov ivc
    rw [List.countP_append, hdtr,
      try_drop_fd_hit os cfg fd (((readv_delegate os fd iov ivc).eff).getD e) st hfd hstat hreg hsz]
    simp [isDontneedOn]
  · intro h0
    rw [(readv_ne_zero os cfg fd iov ivc e h0).2]
    obtain ⟨raw, hdtr⟩ := readv_delegate_tr os fd iov ivc
    rw [hdtr]
    rfl
  · rcases cfg with ⟨cut, oh, cd⟩
    rfl

theorem fadv_c3_witness :
    (read_delegate osW 3 5).ret = 0
      ∧ ((read osW default_config 3 5 0).tr).countP (isDontneedOn 3) = 1 :=
  ⟨by decide,
    (fadv_c3_eof_drop osW default_config 3 5 0 1 2 0 stReg true).1
      (by decide) (by decide) (by decide) (by decide) (by decide)⟩

/-- Claim C4: with close-drop enabled, close and fclose on a small
regular descriptor issue exactly one DONTNEED advisory, emitted before
the delegation to the original teardown; with close-drop disabled the
close paths issue no advisory. -/
theorem fadv_c4_close_drop (os : OS) (cfg : Config) (fd h e : Int) (st : Stat) :
    (cfg.do_close_drop = true → 0 ≤ fd → os.fstat fd = some st →
        S_ISREG st.st_mode = true → st.st_size ≤ cfg.small_file_cutoff →
        ((close os cfg fd e).tr
            = Ev.fstatEv fd :: Ev.fadviseEv fd Advice.dontneed :: (close_delegate os fd).tr
          ∧ ((close os cfg fd e).tr).countP isFadv = 1))
    ∧ (cfg.do_close_drop = false → ((close os cfg fd e).tr).countP isFadv = 0)
    ∧ (cfg.do_close_drop = true → os.fileno h = fd → 0 ≤ fd → os.fstat fd = some st →
        S_ISREG st.st_mode = true → st.st_size ≤ cfg.small_file_cutoff →
        (((fclose os cfg (some h) e).tr).countP isFadv = 1
          ∧ ∃ t, (fclose os cfg (some h) e).tr
                = Ev.fstatEv fd :: Ev.fadviseEv fd Advice.dontneed :: t
              ∧ t.all (fun x => !(isAdvisoryStep x)) = true))
    ∧ (cfg.do_close_drop = false → ((fclose os cfg (some h) e).tr).countP isFadv = 0) := by
  refine ⟨?_, ?_, ?_, ?_⟩
  · intro hcd h0 h1 h2 h3
    rw [close_tr, if_pos hcd, try_drop_fd_hit os cfg fd e st h0 h1 h2 h3]
    obtain ⟨raw, hdtr⟩ := close_delegate_tr os fd
    constructor
    · simp
    · rw [List.countP_append, hdtr,
        show ((e, [Ev.fstatEv fd, Ev.fadviseEv fd Advice.dontneed]) : Int × List Ev).2
          = [Ev.fstatEv fd, Ev.fadviseEv fd Advice.dontneed] from rfl]
      rfl
  · intro hcd
    rw [close_tr, if_neg (by simp [hcd])]
    obtain ⟨raw, hdtr⟩ := close_delegate_tr os fd
    rw [hdtr]
    rfl
  · intro hcd hfile h0 h1 h2 h3
    rcases hf : os.real_fclose with _ | f
    · rw [show (fclose os cfg (some h) e).tr = (fclose_adv os cfg (some h) e).2 from by
        rw [fclose_unresolved os cfg (some h) e hf]]
      rw [fclose_adv_hit os cfg h e fd st hcd hfile h0 h1 h2 h3]
      exact ⟨rfl, [], rfl, rfl⟩
    · rw [show (fclose os cfg (some h) e).tr
          = (fclose_adv os cfg (some h) e).2 ++ [Ev.dFcloseEv (some h)] from by
        rw [fclose_resolved os cfg (some h) e f hf]]
      rw [fclose_adv_hit os cfg h e fd st hcd hfile h0 h1 h2 h3]
      exact ⟨rfl, [Ev.dFcloseEv (some h)], rfl, rfl⟩
  · intro hcd
    rcases hf : os.real_fclose with _ | f
    · rw [show (fclose os cfg (some h) e).tr = (fclose_adv os cfg (some h) e).2 from by
        rw [fclose_unresolved os cfg (some h) e hf]]
      rw [fclose_adv_off os cfg (some h) e hcd]
      rfl
    · rw [show (fclose os cfg (some h) e).tr
          = (fclose_adv os cfg (some h) e).2 ++ [Ev.dFcloseEv (some h)] from by
        rw [fclose_resolved os cfg (some h) e f hf]]
      rw [fclose_adv_off os cfg (some h) e hcd]
      rfl

theorem fadv_c4_witness :
    default_config.do_close_drop = true
      ∧ ((close osW default_config 3 0).tr).countP isFadv = 1
      ∧ ((fclose osW default_config (some 7) 0).tr).countP isFadv = 1 :=
  ⟨by decide,
    ((fadv_c4_close_drop osW default_config 3 7 0 stReg).1
      (by decide) (by decide) (by decide) (by decide) (by decide)).2,
    (((fadv_c4_close_drop osW default_config 3 7 0 stReg).2.2.1
      (by decide) (by decide) (by decide) (by decide) (by decide) (by decide))).1⟩

/-- Claim C1: every wrapper returns exactly the value of the call it
delegated to and, whenever the caller can observe an error (failing
return, or an errno effect actually produced by the delegate), the
errno the caller sees is exactly the one the delegate produced; for the
open and read families the advisory step runs strictly after the
delegation trace, and for the close family strictly before it, and in
all cases it contributes only fstat and fadvise events, never altering
the returned value. -/
theorem fadv_c1_passthrough (os : OS) (cfg : Config) (p : String) (fl m : Nat)
    (md : String) (fd : Int) (cnt : Nat) (off : Int) (iov : Nat) (ivc : Int)
    (s : Option Int) (e : Int) (fimpl : Option Int → Int × Option Int)
    (hf : os.real_fclose = some fimpl) :
    ((open_wrap os cfg p fl m e).ret
        = (open_delegate os p fl (if fl &&& O_CREAT != 0 then m else 0)).ret
      ∧ ((open_wrap os cfg p fl m e).ret < 0 →
          (open_wrap os cfg p fl m e).errno
            = ((open_delegate os p fl (if fl &&& O_CREAT != 0 then m else 0)).eff).getD e)
      ∧ ∃ a, (open_wrap os cfg p fl m e).tr
            = (open_delegate os p fl (if fl &&& O_CREAT != 0 then m else 0)).tr ++ a
          ∧ a.all isAdvisoryStep = true)
    ∧ ((open64 os cfg p fl m e).ret
        = (open64_delegate os p fl (if fl &&& O_CREAT != 0 then m else 0)).ret
      ∧ ((open64 os cfg p fl m e).ret < 0 →
          (open64 os cfg p fl m e).errno
            = ((open64_delegate os p fl (if fl &&& O_CREAT != 0 then m else 0)).eff).getD e)
      ∧ ∃ a, (open64 os cfg p fl m e).tr
            = (open64_delegate os p fl (if fl &&& O_CREAT != 0 then m else 0)).tr ++ a
          ∧ a.all isAdvisoryStep = true)
    ∧ ((fopen os cfg p md e).ret = (fopen_delegate os cfg p md e).ret
      ∧ ((fopen os cfg p md e).ret = none →
          (fopen os cfg p md e).errno = (fopen_delegate os cfg p md e).errno)
      ∧ ∃ a, (fopen os cfg p md e).tr = (fopen_delegate os cfg p md e).tr ++ a
          ∧ a.all isAdvisoryStep = true)
    ∧ ((read os cfg fd cnt e).ret = (read_delegate os fd cnt).ret
      ∧ ((read_delegate os fd cnt).ret ≠ 0 →
          (read os cfg fd cnt e).errno = ((read_delegate os fd cnt).eff).getD e)
      ∧ ∃ a, (read os cfg fd cnt e).tr = (read_delegate os fd cnt).tr ++ a
          ∧ a.all isAdvisoryStep = true)
    ∧ ((pread os cfg fd cnt off e).ret = (pread_delegate os fd cnt off).ret
      ∧ ((pread_delegate os fd cnt off).ret ≠ 0 →
          (pread os cfg fd cnt off e).errno = ((pread_delegate os fd cnt off).eff).getD e)
      ∧ ∃ a, (pread os cfg fd cnt off e).tr = (pread_delegate os fd cnt off).tr ++ a
          ∧ a.all isAdvisoryStep = true)
    ∧ ((readv os cfg fd iov ivc e).ret = (readv_delegate os fd iov ivc).ret
      ∧ ((readv_delegate os fd iov ivc).ret ≠ 0 →
          (readv os cfg fd iov ivc e).errno = ((readv_delegate os fd iov ivc).eff).getD e)
      ∧ ∃ a, (readv os cfg fd iov ivc e).tr = (readv_delegate os fd iov ivc).tr ++ a
          ∧ a.all isAdvisoryStep = true)
    ∧ ((close os cfg fd e).ret = (close_delegate os fd).ret
      ∧ (((close_delegate os fd).eff).isSome = true →
          (close os cfg fd e).errno = ((close_delegate os fd).eff).getD e)
      ∧ ∃ a, (close os cfg fd e).tr = a ++ (close_delegate os fd).tr
          ∧ a.all isAdvisoryStep = true)
    ∧ ((fclose os cfg s e).ret = (fimpl s).1
      ∧ (((fimpl s).2).isSome = true →
          (fclose os cfg s e).errno = ((fimpl s).2).getD e)
      ∧ ∃ a, (fclose os cfg s e).tr = a ++ [Ev.dFcloseEv s]
          ∧ a.all isAdvisoryStep = true) := by
  refine ⟨⟨open_wrap_ret os cfg p fl m e, ?_, ?_⟩,
    ⟨open64_ret os cfg p fl m e, ?_, ?_⟩,
    ⟨fopen_ret os cfg p md e, ?_, fopen_tr_decomp os cfg p md e⟩,
    ⟨read_ret os cfg fd cnt e, ?_, ?_⟩,
    ⟨pread_ret os cfg fd cnt off e, ?_, ?_⟩,
    ⟨readv_ret os cfg fd iov ivc e, ?_, ?_⟩,
    ⟨close_ret os cfg fd e, ?_, ?_⟩, ?_, ?_, ?_⟩
  · intro hlt
    rw [open_wrap_ret] at hlt
    rw [open_wrap_errno, try_open_hint_neg os cfg _ _ hlt]
  · exact ⟨_, open_wrap_tr os cfg p fl m e, try_open_hint_tr_adv _ _ _ _⟩
  · intro hlt
    rw [open64_ret] at hlt
    rw [open64_errno, try_open_hint_neg os cfg _ _ hlt]
  · exact ⟨_, open64_tr os cfg p fl m e, try_open_hint_tr_adv _ _ _ _⟩
  · intro hn
    rw [fopen_ret] at hn
    rw [fopen_none os cfg p md e hn]
  · intro hne
    exact (read_ne_zero os cfg fd cnt e hne).1
  · by_cases h0 : (read_delegate os fd cnt).ret = 0
    · exact ⟨_, read_zero os cfg fd cnt e h0, try_drop_fd_tr_adv _ _ _ _⟩
    · exact ⟨[], by rw [(read_ne_zero os cfg fd cnt e h0).2, List.append_nil], rfl⟩
  · intro hne
    exact (pread_ne_zero os cfg fd cnt off e hne).1
  · by_cases h0 : (pread_delegate os fd cnt off).ret = 0
    · exact ⟨_, pread_zero os cfg fd cnt off e h0, try_drop_fd_tr_adv _ _ _ _⟩
    · exact ⟨[], by rw [(pread_ne_zero os cfg fd cnt off e h0).2, List.append_nil], rfl⟩
  · intro hne
    exact (readv_ne_zero os cfg fd iov ivc e hne).1
  · by_cases h0 : (readv_delegate os fd iov ivc).ret = 0
    · exact ⟨_, readv_zero os cfg fd iov ivc e h0, try_drop_fd_tr_adv _ _ _ _⟩
    · exact ⟨[], by rw [(readv_ne_zero os cfg fd iov ivc e h0).2, List.append_nil], rfl⟩
  · intro hsome
    obtain ⟨x, hx⟩ := Option.isSome_iff_exists.mp hsome
    rw [close_errno, hx]
    rfl
  · refine ⟨_, close_tr os cfg fd e, ?_⟩
    cases hcd : cfg.do_close_drop
    · rw [if_neg (by simp)]
      rfl
    · rw [if_pos rfl]
      exact try_drop_fd_tr_adv _ _ _ _
  · rw [fclose_resolved os cfg s e fimpl hf]
  · intro hsome
    obtain ⟨x, hx⟩ := Option.isSome_iff_exists.mp hsome
    rw [fclose_resolved os cfg s e fimpl hf, hx]
    rfl
  · rw [fclose_resolved os cfg s e fimpl hf]
    exact ⟨_, rfl, fclose_adv_all os cfg s e⟩

theorem fadv_c1_witness :
    osW.real_fclose = some fcwF
      ∧ (open_wrap osW default_config "a" 0 0 0).ret
          = (open_delegate osW "a" 0 (if (0 : Nat) &&& O_CREAT != 0 then 0 else 0)).ret
      ∧ (read osW default_config 3 5 0).ret = (read_delegate osW 3 5).ret
      ∧ (close osW default_config 3 0).ret = (close_delegate osW 3).ret
      ∧ (fclose osW default_config (some 7) 0).ret = (fcwF (some 7)).1 := by
  have h := fadv_c1_passthrough osW default_config "a" 0 0 "r" 3 5 0 1 2 (some 7) 0 fcwF rfl
  exact ⟨rfl, h.1.1, h.2.2.2.1.1, h.2.2.2.2.2.2.1.1, h.2.2.2.2.2.2.2.1⟩

/-! Case lemmas for the fopen delegation and trace. -/

theorem fopen_delegate_resolved (os : OS) (cfg : Config) (p md : String) (e : Int)
    (rf : String → String → Option Int × Option Int) (hrf : os.real_fopen = some rf) :
    fopen_delegate os cfg p md e
      = ⟨(rf p md).1, ((rf p md).2).getD e, [Ev.dFopenEv p md]⟩ := by
  unfold fopen_delegate
  rw [hrf]

theorem fopen_delegate_fallback (os : OS) (cfg : Config) (p md : String) (e : Int)
    (hrf : os.real_fopen = none) :
    fopen_delegate os cfg p md e
      = ⟨(os.fdopen (open_wrap os cfg p O_RDONLY 0 e).ret "r").1,
          ((os.fdopen (open_wrap os cfg p O_RDONLY 0 e).ret "r").2).getD
            (open_wrap os cfg p O_RDONLY 0 e).errno,
          (open_wrap os cfg p O_RDONLY 0 e).tr
            ++ [Ev.dFdopenEv (open_wrap os cfg p O_RDONLY 0 e).ret]⟩ := by
  unfold fopen_delegate
  rw [hrf]

theorem fopen_tr_hint (os : OS) (cfg : Config) (p md : String) (e : Int) (h : Int)
    (hsome : (fopen_delegate os cfg p md e).ret = some h)
    (hh : cfg.do_open_hint = true) :
    (fopen os cfg p md e).tr
      = (fopen_delegate os cfg p md e).tr
        ++ (try_open_hint os cfg (os.fileno h) (fopen_delegate os cfg p md e).errno).2 := by
  unfold fopen
  dsimp only
  rw [hsome]
  dsimp only
  rw [if_pos hh]

/-- Claim C2 is refuted as stated: with the buffered-open original
unresolved, a successful fopen of a small regular file with open-hint
enabled issues the NOREUSE advisory twice (once inside the interposed
open used by the fallback and once on the derived descriptor), not
exactly once. -/
theorem fadv_c2_counterexample :
    osA.real_fopen = none
      ∧ default_config.do_open_hint = true
      ∧ (fopen osA default_config "a" "r" 0).ret = some 7
      ∧ osA.fileno 7 = 3
      ∧ osA.fstat 3 = some stReg
      ∧ S_ISREG stReg.st_mode = true
      ∧ stReg.st_size ≤ default_config.small_file_cutoff
      ∧ ((fopen osA default_config "a" "r" 0).tr).countP (isNoreuseOn 3) = 2 :=
  ⟨rfl, by decide, by decide, by decide, by decide, by decide, by decide, by decide⟩

/-- Claim C2 as amended: with open-hint enabled, open and open64 issue
exactly one NOREUSE advisory on the new descriptor when it is a small
regular file, and likewise fopen when its original was resolved; when
the buffered-open original is unresolved the successful fallback issues
the hint twice; and an open of a file whose size exceeds the cutoff
issues no advisory at all. -/
theorem fadv_c2_open_hint_amended (os : OS) (cfg : Config) (p : String)
    (fl m : Nat) (md : String) (e : Int) (st stA stB : Stat)
    (rf : String → String → Option Int × Option Int) (h hB : Int)
    (hh : cfg.do_open_hint = true) :
    (0 ≤ (open_delegate os p fl (if fl &&& O_CREAT != 0 then m else 0)).ret →
      os.fstat (open_delegate os p fl (if fl &&& O_CREAT != 0 then m else 0)).ret = some st →
      S_ISREG st.st_mode = true → st.st_size ≤ cfg.small_file_cutoff →
      (((open_wrap os cfg p fl m e).tr).countP
          (isNoreuseOn (open_delegate os p fl (if fl &&& O_CREAT != 0 then m else 0)).ret) = 1
        ∧ ((open_wrap os cfg p fl m e).tr).countP isFadv = 1))
    ∧ (0 ≤ (open64_delegate os p fl (if fl &&& O_CREAT != 0 then m else 0)).ret →
      os.fstat (open64_delegate os p fl (if fl &&& O_CREAT != 0 then m else 0)).ret = some st →
      S_ISREG st.st_mode = true → st.st_size ≤ cfg.small_file_cutoff →
      (((open64 os cfg p fl m e).tr).countP
          (isNoreuseOn (open64_delegate os p fl (if fl &&& O_CREAT != 0 then m else 0)).ret) = 1
        ∧ ((open64 os cfg p fl m e).tr).countP isFadv = 1))
    ∧ (os.fstat (open_delegate os p fl (if fl &&& O_CREAT != 0 then m else 0)).ret = some st →
        cfg.small_file_cutoff < st.st_size →
        ((open_wrap os cfg p fl m e).tr).countP isFadv = 0)
    ∧ (os.fstat (open64_delegate os p fl (if fl &&& O_CREAT != 0 then m else 0)).ret = some st →
        cfg.small_file_cutoff < st.st_size →
        ((open64 os cfg p fl m e).tr).countP isFadv = 0)
    ∧ (os.real_fopen = some rf → (rf p md).1 = some h → 0 ≤ os.fileno h →
        os.fstat (os.fileno h) = some stA → S_ISREG stA.st_mode = true →
        stA.st_size ≤ cfg.small_file_cutoff →
        (((fopen os cfg p md e).tr).countP isFadv = 1
          ∧ ((fopen os cfg p md e).tr).countP (isNoreuseOn (os.fileno h)) = 1))
    ∧ (os.real_fopen = none →
        (os.fdopen (open_wrap os cfg p O_RDONLY 0 e).ret "r").1 = some hB →
        os.fileno hB = (open_wrap os cfg p O_RDONLY 0 e).ret →
        0 ≤ os.fileno hB → os.fstat (os.fileno hB) = some stB →
        S_ISREG stB.st_mode = true → stB.st_size ≤ cfg.small_file_cutoff →
        (((fopen os cfg p md e).tr).countP isFadv = 2
          ∧ ((fopen os cfg p md e).tr).countP (isNoreuseOn (os.fileno hB)) = 2))
    ∧ ((∀ g stg, os.fstat g = some stg → cfg.small_file_cutoff < stg.st_size) →
        ((fopen os cfg p md e).tr).countP isFadv = 0) := by
  refine ⟨?_, ?_, ?_, ?_, ?_, ?_, ?_⟩
  · intro h0 h1 h2 h3
    obtain ⟨sym, hdtr⟩ := open_delegate_tr os p fl (if fl &&& O_CREAT != 0 then m else 0)
    constructor
    · rw [open_wrap_tr, List.countP_append, hdtr,
        try_open_hint_hit os cfg _ _ st hh h0 h1 h2 h3]
      simp [isNoreuseOn, List.countP_cons]
    · rw [open_wrap_tr, List.countP_append, hdtr,
        try_open_hint_hit os cfg _ _ st hh h0 h1 h2 h3]
      rfl
  · intro h0 h1 h2 h3
    obtain ⟨sym, hdtr⟩ := open64_delegate_tr os p fl (if fl &&& O_CREAT != 0 then m else 0)
    constructor
    · rw [open64_tr, List.countP_append, hdtr,
        try_open_hint_hit os cfg _ _ st hh h0 h1 h2 h3]
      simp [isNoreuseOn, List.countP_cons]
    · rw [open64_tr, List.countP_append, hdtr,
        try_open_hint_hit os cfg _ _ st hh h0 h1 h2 h3]
      rfl
  · intro h1 h2
    obtain ⟨sym, hdtr⟩ := open_delegate_tr os p fl (if fl &&& O_CREAT != 0 then m else 0)
    rw [open_wrap_tr, List.countP_append, hdtr,
      try_open_hint_big os cfg _ _ (fun st2 hst2 => by
        rw [h1] at hst2
        injection hst2 with hst3
        rw [← hst3]
        exact h2)]
    rfl
  · intro h1 h2
    obtain ⟨sym, hdtr⟩ := open64_delegate_tr os p fl (if fl &&& O_CREAT != 0 then m else 0)
    rw [open64_tr, List.countP_append, hdtr,
      try_open_hint_big os cfg _ _ (fun st2 hst2 => by
        rw [h1] at hst2
        injection hst2 with hst3
        rw [← hst3]
        exact h2)]
    rfl
  · intro hrf hsome h0 h1 h2 h3
    have hd := fopen_delegate_resolved os cfg p md e rf hrf
    have hret : (fopen_delegate os cfg p md e).ret = some h := by
      rw [hd]
      exact hsome
    rw [fopen_tr_hint os cfg p md e h hret hh, hd]
    dsimp only
    rw [try_open_hint_hit os cfg _ _ stA hh h0 h1 h2 h3]
    constructor
    · rfl
    · simp [isNoreuseOn, List.countP_append, List.countP_cons]
  · intro hrf hsome hfile h0 h1 h2 h3
    have hd := fopen_delegate_fallback os cfg p md e hrf
    have hret : (fopen_delegate os cfg p md e).ret = some hB := by
      rw [hd]
      exact hsome
    rw [fopen_tr_hint os cfg p md e hB hret hh, hd]
    dsimp only
    rw [open_wrap_tr]
    obtain ⟨sym, hdtr⟩ := open_delegate_tr os p O_RDONLY
      (if O_RDONLY &&& O_CREAT != 0 then 0 else 0)
    rw [hdtr]
    have hfd : (open_delegate os p O_RDONLY
        (if O_RDONLY &&& O_CREAT != 0 then 0 else 0)).ret = os.fileno hB := by
      rw [hfile, open_wrap_ret]
    rw [hfd, try_open_hint_hit os cfg (os.fileno hB) _ stB hh h0 h1 h2 h3,
      try_open_hint_hit os cfg (os.fileno hB) _ stB hh h0 h1 h2 h3]
    constructor
    · simp [isFadv, List.countP_append, List.countP_cons]
    · simp [isNoreuseOn, List.countP_append, List.countP_cons]
  · intro hbig
    rcases hrf : os.real_fopen with _ | rf2
    · have hd := fopen_delegate_fallback os cfg p md e hrf
      rcases hret : (fopen_delegate os cfg p md e).ret with _ | hB2
      · rw [fopen_none os cfg p md e hret, hd]
        dsimp only
        rw [open_wrap_tr]
        obtain ⟨sym, hdtr⟩ := open_delegate_tr os p O_RDONLY
          (if O_RDONLY &&& O_CREAT != 0 then 0 else 0)
        rw [hdtr, List.countP_append, List.countP_append,
          try_open_hint_big os cfg _ _ (fun st2 hs => hbig _ st2 hs)]
        rfl
      · rw [fopen_tr_hint os cfg p md e hB2 hret hh, hd]
        dsimp only
        rw [open_wrap_tr]
        obtain ⟨sym, hdtr⟩ := open_delegate_tr os p O_RDONLY
          (if O_RDONLY &&& O_CREAT != 0 then 0 else 0)
        rw [hdtr]
        simp only [List.countP_append]
        rw [try_open_hint_big os cfg _ _ (fun st2 hs => hbig _ st2 hs),
          try_open_hint_big os cfg _ _ (fun st2 hs => hbig _ st2 hs)]
        rfl
    · have hd := fopen_delegate_resolved os cfg p md e rf2 hrf
      rcases hret : (fopen_delegate os cfg p md e).ret with _ | h2
      · rw [fopen_none os cfg p md e hret, hd]
        rfl
      · rw [fopen_tr_hint os cfg p md e h2 hret hh, hd]
        dsimp only
        rw [List.countP_append,
          try_open_hint_big os cfg _ _ (fun st2 hs => hbig _ st2 hs)]
        rfl

theorem fadv_c2_witness :
    default_config.do_open_hint = true
      ∧ ((open_wrap osW default_config "a" 0 0 0).tr).countP isFadv = 1
      ∧ ((fopen osW default_config "a" "r" 0).tr).countP isFadv = 1 := by
  have h := fadv_c2_open_hint_amended osW default_config "a" 0 0 "r" 0
    stReg stReg stReg fowF 7 0 rfl
  exact ⟨rfl,
    (h.1 (by decide) (by decide) (by decide) (by decide)).2,
    (h.2.2.2.2.1 rfl (by decide) (by decide) (by decide) (by decide) (by decide)).1⟩

theorem close_adv_all (os : OS) (cfg : Config) (fd : Int) (e : Int) :
    ((if cfg.do_close_drop then try_drop_fd os cfg fd e else (e, [])).2).all
      isAdvisoryStep = true := by
  cases hcd : cfg.do_close_drop
  · rw [if_neg (by simp)]
    rfl
  · rw [if_pos rfl]
    exact try_drop_fd_tr_adv _ _ _ _

/-- Claim C7 is refuted as stated: with the buffered-close original
unresolved, fclose performs no call at all (its event trace is empty on
a null stream) and returns 0, instead of invoking a corresponding raw
system call with the same arguments. -/
theorem fadv_c7_counterexample :
    osB.real_fclose = none
      ∧ (fclose osB default_config none 0).ret = 0
      ∧ (fclose osB default_config none 0).tr = [] :=
  ⟨rfl, by decide, by decide⟩

/-- Claim C7 as amended: open, create-open, read, positioned-read,
vectored-read and close delegate to the resolved original with the
exact caller arguments (the forwarded creation mode being the caller
mode exactly when O_CREAT is set, 0 otherwise), and fall back to the
raw system call with the same arguments when unresolved; buffered-open
falls back to fdopen over the interposed open called read-only; and
buffered-close with an unresolved original makes no call and returns
0. -/
theorem fadv_c7_delegation_amended (os : OS) (cfg : Config) (p : String)
    (fl m : Nat) (md : String) (fd : Int) (cnt : Nat) (off : Int) (iov : Nat)
    (ivc : Int) (s : Option Int) (e : Int) :
    (os.real_open ≠ none → (open_wrap os cfg p fl m e).tr.head?
        = some (Ev.dOpenEv OpenSym.viaOpen p fl (if fl &&& O_CREAT != 0 then m else 0)))
    ∧ (os.real_open = none → (open_wrap os cfg p fl m e).tr.head?
        = some (Ev.dOpenEv OpenSym.viaRaw p fl (if fl &&& O_CREAT != 0 then m else 0)))
    ∧ (fl &&& O_CREAT = 0 → (if fl &&& O_CREAT != 0 then m else 0) = 0)
    ∧ (fl &&& O_CREAT ≠ 0 → (if fl &&& O_CREAT != 0 then m else 0) = m)
    ∧ (os.real_open64 ≠ none → (open64 os cfg p fl m e).tr.head?
        = some (Ev.dOpenEv OpenSym.viaOpen64 p fl (if fl &&& O_CREAT != 0 then m else 0)))
    ∧ (os.real_open64 = none → (open64 os cfg p fl m e).tr.head?
        = some (Ev.dOpenEv OpenSym.viaRaw p fl (if fl &&& O_CREAT != 0 then m else 0)))
    ∧ (os.real_read ≠ none →
        (read os cfg fd cnt e).tr.head? = some (Ev.dReadEv false fd cnt))
    ∧ (os.real_read = none →
        (read os cfg fd cnt e).tr.head? = some (Ev.dReadEv true fd cnt))
    ∧ (os.real_pread ≠ none →
        (pread os cfg fd cnt off e).tr.head? = some (Ev.dPreadEv false fd cnt off))
    ∧ (os.real_pread = none →
        (pread os cfg fd cnt off e).tr.head? = some (Ev.dPreadEv true fd cnt off))
    ∧ (os.real_readv ≠ none →
        (readv os cfg fd iov ivc e).tr.head? = some (Ev.dReadvEv false fd iov ivc))
    ∧ (os.real_readv = none →
        (readv os cfg fd iov ivc e).tr.head? = some (Ev.dReadvEv true fd iov ivc))
    ∧ (os.real_close ≠ none → ∃ a, (close os cfg fd e).tr = a ++ [Ev.dCloseEv false fd]
        ∧ a.all isAdvisoryStep = true)
    ∧ (os.real_close = none → ∃ a, (close os cfg fd e).tr = a ++ [Ev.dCloseEv true fd]
        ∧ a.all isAdvisoryStep = true)
    ∧ (os.real_fopen ≠ none →
        (fopen os cfg p md e).tr.head? = some (Ev.dFopenEv p md))
    ∧ (os.real_fopen = none → ∃ t, (fopen os cfg p md e).tr
        = (open_wrap os cfg p O_RDONLY 0 e).tr
          ++ Ev.dFdopenEv (open_wrap os cfg p O_RDONLY 0 e).ret :: t
        ∧ t.all isAdvisoryStep = true)
    ∧ (os.real_fclose ≠ none → ∃ a, (fclose os cfg s e).tr = a ++ [Ev.dFcloseEv s]
        ∧ a.all isAdvisoryStep = true)
    ∧ (os.real_fclose = none →
        (fclose os cfg s e).ret = 0 ∧ ((fclose os cfg s e).tr).all isAdvisoryStep = true) := by
  refine ⟨?_, ?_, ?_, ?_, ?_, ?_, ?_, ?_, ?_, ?_, ?_, ?_, ?_, ?_, ?_, ?_, ?_, ?_⟩
  · intro hne
    rcases hro : os.real_open with _ | f
    · exact absurd hro hne
    · rw [open_wrap_tr]
      simp [open_delegate, hro]
  · intro hro
    rw [open_wrap_tr]
    simp [open_delegate, hro]
  · intro hz
    simp [hz]
  · intro hz
    rw [if_pos (by simpa using hz)]
  · intro hne
    rcases hro : os.real_open64 with _ | f
    · exact absurd hro hne
    · rw [open64_tr]
      simp [open64_delegate, hro]
  · intro hro
    rw [open64_tr]
    simp [open64_delegate, hro]
  · intro hne
    rcases hro : os.real_read with _ | f
    · exact absurd hro hne
    · have hdtr : (read_delegate os fd cnt).tr = [Ev.dReadEv false fd cnt] := by
        simp [read_delegate, hro]
      by_cases h0 : (read_delegate os fd cnt).ret = 0
      · rw [read_zero os cfg fd cnt e h0, hdtr]
        rfl
      · rw [(read_ne_zero os cfg fd cnt e h0).2, hdtr]
        rfl
  · intro hro
    have hdtr : (read_delegate os fd cnt).tr = [Ev.dReadEv true fd cnt] := by
      simp [read_delegate, hro]
    by_cases h0 : (read_delegate os fd cnt).ret = 0
    · rw [read_zero os cfg fd cnt e h0, hdtr]
      rfl
    · rw [(read_ne_zero os cfg fd cnt e h0).2, hdtr]
      rfl
  · intro hne
    rcases hro : os.real_pread with _ | f
    · exact absurd hro hne
    · have hdtr : (pread_delegate os fd cnt off).tr = [Ev.dPreadEv false fd cnt off] := by
        simp [pread_delegate, hro]
      by_cases h0 : (pread_delegate os fd cnt off).ret = 0
      · rw [pread_zero os cfg fd cnt off e h0, hdtr]
        rfl
      · rw [(pread_ne_zero os cfg fd cnt off e h0).2, hdtr]
        rfl
  · intro hro
    have hdtr : (pread_delegate os fd cnt off).tr = [Ev.dPreadEv true fd cnt off] := by
      simp [pread_delegate, hro]
    by_cases h0 : (pread_delegate os fd cnt off).ret = 0
    · rw [pread_zero os cfg fd cnt off e h0, hdtr]
      rfl
    · rw [(pread_ne_zero os cfg fd cnt off e h0).2, hdtr]
      rfl
  · intro hne
    rcases hro : os.real_readv with _ | f
    · exact absurd hro hne
    · have hdtr : (readv_delegate os fd iov ivc).tr = [Ev.dReadvEv false fd iov ivc] := by
        simp [readv_delegate, hro]
      by_cases h0 : (readv_delegate os fd iov ivc).ret = 0
      · rw [readv_zero os cfg fd iov ivc e h0, hdtr]
        rfl
      · rw [(readv_ne_zero os cfg fd iov ivc e h0).2, hdtr]
        rfl
  · intro hro
    have hdtr : (readv_delegate os fd iov ivc).tr = [Ev.dReadvEv true fd iov ivc] := by
      simp [readv_delegate, hro]
    by_cases h0 : (readv_delegate os fd iov ivc).ret = 0
    · rw [readv_zero os cfg fd iov ivc e h0, hdtr]
      rfl
    · rw [(readv_ne_zero os cfg fd iov ivc e h0).2, hdtr]
      rfl
  · intro hne
    rcases hro : os.real_close with _ | f
    · exact absurd hro hne
    · have hdtr : (close_delegate os fd).tr = [Ev.dCloseEv false fd] := by
        simp [close_delegate, hro]
      exact ⟨_, by rw [close_tr, hdtr], close_adv_all os cfg fd e⟩
  · intro hro
    have hdtr : (close_delegate os fd).tr = [Ev.dCloseEv true fd] := by
      simp [close_delegate, hro]
    exact ⟨_, by rw [close_tr, hdtr], close_adv_all os cfg fd e⟩
  · intro hne
    rcases hro : os.real_fopen with _ | rf
    · exact absurd hro hne
    · obtain ⟨a, ha, _⟩ := fopen_tr_decomp os cfg p md e
      rw [ha, show (fopen_delegate os cfg p md e).tr = [Ev.dFopenEv p md] from by
        rw [fopen_delegate_resolved os cfg p md e rf hro]]
      rfl
  · intro hro
    obtain ⟨a, ha, hall⟩ := fopen_tr_decomp os cfg p md e
    rw [ha, show (fopen_delegate os cfg p md e).tr
        = (open_wrap os cfg p O_RDONLY 0 e).tr
          ++ [Ev.dFdopenEv (open_wrap os cfg p O_RDONLY 0 e).ret] from by
      rw [fopen_delegate_fallback os cfg p md e hro]]
    exact ⟨a, by rw [List.append_assoc]; rfl, hall⟩
  · intro hne
    rcases hro : os.real_fclose with _ | f
    · exact absurd hro hne
    · exact ⟨_, by rw [fclose_resolved os cfg s e f hro], fclose_adv_all os cfg s e⟩
  · intro hro
    rw [fclose_unresolved os cfg s e hro]
    exact ⟨rfl, fclose_adv_all os cfg s e⟩

theorem fadv_c7_witness :
    osW.real_open = some opF
      ∧ (open_wrap osW default_config "a" 65 9 0).tr.head?
          = some (Ev.dOpenEv OpenSym.viaOpen "a" 65
              (if (65 : Nat) &&& O_CREAT != 0 then 9 else 0))
      ∧ (if (65 : Nat) &&& O_CREAT != 0 then (9 : Nat) else 0) = 9
      ∧ (read osW default_config 3 5 0).tr.head? = some (Ev.dReadEv false 3 5) := by
  have h := fadv_c7_delegation_amended osW default_config "a" 65 9 "r" 3 5 0 1 2 none 0
  exact ⟨rfl, h.1 (by simp [osW]), h.2.2.2.1 (by decide), h.2.2.2.2.2.2.1 (by simp [osW])⟩

theorem fclose_adv_negfd (os : OS) (cfg : Config) (h : Int) (e : Int)
    (hneg : os.fileno h < 0) : fclose_adv os cfg (some h) e = (e, []) := by
  unfold fclose_adv
  dsimp only
  cases hcd : cfg.do_close_drop
  · rw [if_neg (by simp)]
  · rw [if_pos rfl, if_neg (by omega)]

/-- Claim C8 is refuted as stated: with the buffered-close original
unresolved, fclose runs the advisory block but performs no teardown at
all (neither the original nor any raw fallback appears in the trace)
and returns 0. -/
theorem fadv_c8_counterexample :
    osC.real_fclose = none
      ∧ (fclose osC default_config (some 9) 5).ret = 0
      ∧ (fclose osC default_config (some 9) 5).tr
          = [Ev.fstatEv 4, Ev.fadviseEv 4 Advice.dontneed] :=
  ⟨rfl, by decide, by decide⟩

/-- Claim C8 as amended: fclose derives the descriptor from the stream
handle with fileno before the advisory engine runs (every advisory
event concerns that derived descriptor and precedes the teardown
event), still delegates teardown to the resolved original when the
handle is null, when derivation yields a negative descriptor, or when
close-drop is disabled, and returns that teardown result; but when the
original buffered-close could not be resolved it performs no teardown
at all and returns 0. -/
theorem fadv_c8_fclose_amended (os : OS) (cfg : Config) (h : Int) (s : Option Int)
    (e : Int) (fimpl : Option Int → Int × Option Int) :
    (os.real_fclose ≠ none →
        ∃ a, (fclose os cfg (some h) e).tr = a ++ [Ev.dFcloseEv (some h)]
          ∧ a.all isAdvisoryStep = true ∧ a.all (advOn (os.fileno h)) = true)
    ∧ (os.real_fclose ≠ none → (fclose os cfg none e).tr = [Ev.dFcloseEv none])
    ∧ (os.fileno h < 0 → os.real_fclose ≠ none →
        (fclose os cfg (some h) e).tr = [Ev.dFcloseEv (some h)])
    ∧ (os.real_fclose = some fimpl → (fclose os cfg s e).ret = (fimpl s).1)
    ∧ (os.real_fclose = none → (fclose os cfg s e).ret = 0
        ∧ ((fclose os cfg s e).tr).all isAdvisoryStep = true)
    ∧ (cfg.do_close_drop = false → os.real_fclose ≠ none →
        (fclose os cfg (some h) e).tr = [Ev.dFcloseEv (some h)]) := by
  refine ⟨?_, ?_, ?_, ?_, ?_, ?_⟩
  · intro hne
    rcases hro : os.real_fclose with _ | f
    · exact absurd hro hne
    · exact ⟨(fclose_adv os cfg (some h) e).2,
        by rw [fclose_resolved os cfg (some h) e f hro],
        fclose_adv_all os cfg (some h) e, fclose_adv_on os cfg h e⟩
  · intro hne
    rcases hro : os.real_fclose with _ | f
    · exact absurd hro hne
    · rw [fclose_resolved os cfg none e f hro]
      rfl
  · intro hneg hne
    rcases hro : os.real_fclose with _ | f
    · exact absurd hro hne
    · rw [fclose_resolved os cfg (some h) e f hro]
      dsimp only
      rw [fclose_adv_negfd os cfg h e hneg]
      rfl
  · intro hro
    rw [fclose_resolved os cfg s e fimpl hro]
  · intro hro
    rw [fclose_unresolved os cfg s e hro]
    exact ⟨rfl, fclose_adv_all os cfg s e⟩
  · intro hcd hne
    rcases hro : os.real_fclose with _ | f
    · exact absurd hro hne
    · rw [fclose_resolved os cfg (some h) e f hro]
      dsimp only
      rw [fclose_adv_off os cfg (some h) e hcd]
      rfl

theorem fadv_c8_witness :
    osW.real_fclose = some fcwF
      ∧ (∃ a, (fclose osW default_config (some 7) 0).tr = a ++ [Ev.dFcloseEv (some 7)]
          ∧ a.all isAdvisoryStep = true ∧ a.all (advOn (osW.fileno 7)) = true)
      ∧ (fclose osW default_config (some 7) 0).ret = (fcwF (some 7)).1 := by
  have h := fadv_c8_fclose_amended osW default_config 7 (some 7) 0 fcwF
  exact ⟨rfl, h.1 (by simp [osW]), h.2.2.2.1 rfl⟩

/-- Claim C10: when the resolved open and open64 originals agree, the
two wrappers return the same descriptor and errno, and their traces
agree up to renaming the open64 delegation symbol: same mode
extraction, same delegate-or-raw choice, same advisory events. -/
theorem fadv_c10_open_open64 (os : OS) (cfg : Config) (p : String) (fl m : Nat)
    (e : Int) (heq : os.real_open = os.real_open64) :
    (open64 os cfg p fl m e).ret = (open_wrap os cfg p fl m e).ret
    ∧ (open64 os cfg p fl m e).errno = (open_wrap os cfg p fl m e).errno
    ∧ ((open64 os cfg p fl m e).tr).map erase64
        = ((open_wrap os cfg p fl m e).tr).map erase64 := by
  rcases hro : os.real_open64 with _ | f
  · have hro2 : os.real_open = none := by rw [heq, hro]
    have hd : open_delegate os p fl (if fl &&& O_CREAT != 0 then m else 0)
        = open64_delegate os p fl (if fl &&& O_CREAT != 0 then m else 0) := by
      unfold open_delegate open64_delegate
      rw [hro, hro2]
    refine ⟨?_, ?_, ?_⟩
    · rw [open64_ret, open_wrap_ret, hd]
    · rw [open64_errno, open_wrap_errno, hd]
    · rw [open64_tr, open_wrap_tr, hd]
  · have hro2 : os.real_open = some f := by rw [heq, hro]
    have hd1 : open_delegate os p fl (if fl &&& O_CREAT != 0 then m else 0)
        = ⟨(f p fl (if fl &&& O_CREAT != 0 then m else 0)).1,
            (f p fl (if fl &&& O_CREAT != 0 then m else 0)).2,
            [Ev.dOpenEv OpenSym.viaOpen p fl (if fl &&& O_CREAT != 0 then m else 0)]⟩ := by
      unfold open_delegate
      rw [hro2]
    have hd2 : open64_delegate os p fl (if fl &&& O_CREAT != 0 then m else 0)
        = ⟨(f p fl (if fl &&& O_CREAT != 0 then m else 0)).1,
            (f p fl (if fl &&& O_CREAT != 0 then m else 0)).2,
            [Ev.dOpenEv OpenSym.viaOpen64 p fl (if fl &&& O_CREAT != 0 then m else 0)]⟩ := by
      unfold open64_delegate
      rw [hro]
    refine ⟨?_, ?_, ?_⟩
    · rw [open64_ret, open_wrap_ret, hd1, hd2]
    · rw [open64_errno, open_wrap_errno, hd1, hd2]
    · rw [open64_tr, open_wrap_tr, hd1, hd2]
      rfl

theorem fadv_c10_witness :
    osW.real_open = osW.real_open64
      ∧ (open64 osW default_config "a" 0 0 0).ret
          = (open_wrap osW default_config "a" 0 0 0).ret :=
  ⟨rfl, (fadv_c10_open_open64 osW default_config "a" 0 0 0 rfl).1⟩

end FadvShim
